import Mathlib

/-!
Verification of the vlcc protocol interpreter (src/vlcc/vlcc.py).

Lines of the wire protocol are modelled as lists of characters (the source
decodes the byte buffer as ASCII and strips it before matching).  Regular
expressions from the source are translated into explicit matching functions
on character lists; Python's unbounded integers are modelled as `Int`.
-/

namespace VLCC

/-- A decoded, stripped protocol line (Python `str` after `.decode('ascii').strip()`). -/
abbrev Line := List Char

/-- Returns `some rest` when `pre` is a leading segment of `s` and `rest` is what
follows it, `none` otherwise.  Used to model anchored literal parts of the
source's regular expressions. -/
def dropPrefixQ : Line → Line → Option Line
  | [], s => some s
  | _ :: _, [] => none
  | p :: ps, c :: cs => if p = c then dropPrefixQ ps cs else none

/-- Character class `[a-zA-Z_-]` from `query_return_line_re` (vlcc.py line 265). -/
def nameClassChar (c : Char) : Bool :=
  c.isAlpha || c = '_' || c = '-'

/-- Numeric value of a digit string (each char assumed `[0-9]`). -/
def digitsVal (s : Line) : Int :=
  s.foldl (fun a c => a * 10 + ((c.toNat : Int) - 48)) 0

/-- Does `s` match `-?[0-9]+` exactly? -/
def signedIntStr : Line → Bool
  | '-' :: rest => !rest.isEmpty && rest.all Char.isDigit
  | s => !s.isEmpty && s.all Char.isDigit

/-- Integer value of a group matched by `-?[0-9]+` (Python `int(...)` on it). -/
def parseSignedInt : Line → Int
  | '-' :: rest => -(digitsVal rest)
  | s => digitsVal s

/-- Model of Python `int(line)` on an arbitrary string: strips surrounding
whitespace, allows one optional sign, then one or more digits; anything else
raises `ValueError`, modelled as `none`.  (Python additionally allows digit
grouping with underscores; no claim depends on that case.) -/
def pyInt (l : Line) : Option Int :=
  let t := ((l.dropWhile Char.isWhitespace).reverse.dropWhile Char.isWhitespace).reverse
  match t with
  | '+' :: rest => if !rest.isEmpty && rest.all Char.isDigit then some (digitsVal rest) else none
  | '-' :: rest => if !rest.isEmpty && rest.all Char.isDigit then some (-(digitsVal rest)) else none
  | s => if !s.isEmpty && s.all Char.isDigit then some (digitsVal s) else none

/-- The `PlayerState` enum of vlcc.py lines 23-27 (`stop = 0`, `play = 2`,
`pause = 3`, `end = 4`; `end` is a Lean keyword, hence `end_`). -/
inductive PlayState
  | stop
  | play
  | pause
  | end_
deriving DecidableEq, Repr

/-- The mutable fields of the `Player` class (vlcc.py lines 76-165).  Each
accessor in the source is lock-protected; a single-attribute read/write is
atomic, so the sequential state is exactly this record. -/
structure PState where
  volume : Int
  video_title : Line
  playstate : PlayState
  curr_time : Int
  total_time : Int
  source : Line
deriving DecidableEq, Repr

/-- The freshly constructed `Player` (vlcc.py lines 77-84). -/
def initPlayer : PState :=
  { volume := 0, video_title := [], playstate := PlayState.stop,
    curr_time := 0, total_time := 0, source := [] }

/-- `inc_curr_time_if_playing` (vlcc.py lines 154-158). -/
def inc_curr_time_if_playing (pl : PState) : PState :=
  if pl.playstate = PlayState.play then { pl with curr_time := pl.curr_time + 1 } else pl

/-- Handler `sc_volume` (vlcc.py 173-175): group is the `-?[0-9]+` capture. -/
def sc_volume (g : Line) (pl : PState) : PState :=
  { pl with volume := parseSignedInt g }

/-- Handler `sc_playing` (vlcc.py 177-179). -/
def sc_playing (_g : Line) (pl : PState) : PState :=
  { pl with playstate := PlayState.play }

/-- Handler `sc_paused` (vlcc.py 181-183). -/
def sc_paused (_g : Line) (pl : PState) : PState :=
  { pl with playstate := PlayState.pause }

/-- Handler `sc_stopped` (vlcc.py 185-187): note the source assigns
`PlayerState.end`, not `PlayerState.stop`. -/
def sc_stopped (_g : Line) (pl : PState) : PState :=
  { pl with playstate := PlayState.end_ }

/-- Test `re.match(r'[A-Z]:/', src)` from `sc_new_input` (vlcc.py 192):
an unanchored-end match at the start of the string. -/
def winDriveMatch : Line → Bool
  | a :: ':' :: '/' :: _ => decide ('A' ≤ a) && decide (a ≤ 'Z')
  | _ => false

/-- Handler `sc_new_input` (vlcc.py 189-196).  It is defined in the source but
never referenced by the `status_changes` table (line 206 wires `sc_playing`
instead), so it is dead code there; it is modelled to compare its behaviour
with the wired handler.  `src.replace('/', '\\')` replaces every slash. -/
def sc_new_input (g : Line) (pl : PState) : PState :=
  let src := if winDriveMatch g then g.map (fun c => if c = '/' then '\\' else c) else g
  { pl with source := src }

/-- A fixed-text payload pattern such as `^stop state: 0$`: matches exactly the
given text and captures nothing. -/
def exactMatch (pat p : Line) : Option Line :=
  if p = pat then some [] else none

/-- Pattern `^audio volume: (-?[0-9]+)$` (vlcc.py 199), returning group 1. -/
def volGroup (p : Line) : Option Line :=
  match dropPrefixQ "audio volume: ".data p with
  | some rest => if signedIntStr rest then some rest else none
  | none => none

/-- Pattern `^new input: file:///(.*?)$` (vlcc.py 206), returning group 1: the
lazy group followed by the end anchor captures everything after the literal
part (lines never contain a newline, so `.` matches every remaining char). -/
def newInputGroup (p : Line) : Option Line :=
  dropPrefixQ "new input: file:///".data p

/-- The `status_changes` rule table (vlcc.py 198-207), in source order.  Each
entry is the payload matcher together with the handler the source wires to it;
in particular the last row (`"input source"`) wires `sc_playing`, exactly as
the source does. -/
def status_changes : List ((Line → Option Line) × (Line → PState → PState)) :=
  [ (volGroup, sc_volume),
    (exactMatch "stop state: 0".data, sc_stopped),
    (exactMatch "play state: 2".data, sc_playing),
    (exactMatch "play state: 3".data, sc_playing),
    (exactMatch "play state: 4".data, sc_playing),
    (exactMatch "pause state: 3".data, sc_paused),
    (exactMatch "pause state: 4".data, sc_stopped),
    (newInputGroup, sc_playing) ]

/-- The first-match-wins loop over the rule table (vlcc.py 357-363): returns
the updated player and whether any rule matched. -/
def runStatusChanges : List ((Line → Option Line) × (Line → PState → PState)) →
    Line → PState → PState × Bool
  | [], _, pl => (pl, false)
  | (m, h) :: rest, p, pl =>
    match m p with
    | some g => (h g pl, true)
    | none => runStatusChanges rest p pl

/-- The part of the outer regex `^status change: \( (.*?) \)(:.*)?\s*$` that
follows the closing ` )`: the optional group matches whenever the remainder
starts with `:` (the greedy `.*` then eats the rest of the line); otherwise
the remainder must be all whitespace to satisfy `\s*$`.  (Lean's
`Char.isWhitespace` covers space, tab, CR, LF; a stripped line cannot end in
the exotic Python-only `\s` characters, so the difference is immaterial.) -/
def tailOk (t : Line) : Bool :=
  match t with
  | ':' :: _ => true
  | _ => t.all Char.isWhitespace

/-- The lazy group `(.*?)` of the outer status-change regex: scanning left to
right, the payload ends at the first position where a literal ` )` follows and
the rest of the line satisfies `tailOk`; if no such position exists the regex
fails.  Returns the payload. -/
def findPayload : Line → Option Line
  | [] => none
  | c :: rest =>
    match dropPrefixQ " )".data (c :: rest) with
    | some t =>
      if tailOk t then some [] else (findPayload rest).map (fun x => c :: x)
    | none => (findPayload rest).map (fun x => c :: x)

/-- `status_change_line.match(line)` (vlcc.py 74, applied at 355): on success
returns group 1, the parenthesized payload. -/
def statusChangeLineMatch (line : Line) : Option Line :=
  match dropPrefixQ "status change: ( ".data line with
  | some s => findPayload s
  | none => none

/-- `query_return_line_re.match(line)` (vlcc.py 265): pattern
`^([a-zA-Z_-]+): returned ([0-9]+).*$`.  The name class excludes `:`, so the
greedy `+` takes the maximal run of name characters; after the literal
`: returned ` at least one digit must follow, then anything.  Returns group 1
(the command name). -/
def queryReturnLineMatch (line : Line) : Option Line :=
  let name := line.takeWhile nameClassChar
  if name.isEmpty then none
  else
    match dropPrefixQ ": returned ".data (line.dropWhile nameClassChar) with
    | some r => if (r.takeWhile Char.isDigit).isEmpty then none else some name
    | none => none

/-- The callbacks that can sit in the command queue.  The first four are the
`resp_*` functions of vlcc.py 304-327; `other` stands for an arbitrary
caller-supplied handler (observable only through the invocation log). -/
inductive Cb
  | isPlaying
  | title
  | getTime
  | getLength
  | other (id : Nat)
deriving DecidableEq, Repr

/-- The exception values relevant to the read loop: `IndexError` (raised by
`query_response` on an empty queue, vlcc.py 297), `QueryValueError` with its
`query`/`value` fields (vlcc.py 30-33; caught at 375 but never raised by any
code in the source), and a plain `ValueError` (what `int(line)` raises,
carrying neither a query name nor a structured value). -/
inductive PyErr
  | indexError
  | queryValueError (query value : Line)
  | valueError
deriving DecidableEq, Repr

/-- The `resp_*` callbacks (vlcc.py 304-327).  `resp_get_time` and
`resp_get_length` call `int(line)`, which raises a plain `ValueError` on a
non-numeric line; nothing converts it into a `QueryValueError`.  An `other`
callback is opaque: it never touches the player and never raises. -/
def runCb : Cb → Line → PState → Except PyErr PState
  | Cb.isPlaying, l, pl =>
    Except.ok (if l = "0".data then { pl with playstate := PlayState.end_ }
               else { pl with playstate := PlayState.play })
  | Cb.title, l, pl => Except.ok { pl with video_title := l }
  | Cb.getTime, l, pl =>
    match pyInt l with
    | some n => Except.ok { pl with curr_time := n }
    | none => Except.error PyErr.valueError
  | Cb.getLength, l, pl =>
    match pyInt l with
    | some n => Except.ok { pl with total_time := n }
    | none => Except.error PyErr.valueError
  | Cb.other _, _, pl => Except.ok pl

/-- The successful result of a callback, as a total function (used to state
theorems about runs in which no callback raises). -/
def applyCb : Cb → Line → PState → PState
  | Cb.isPlaying, l, pl =>
    if l = "0".data then { pl with playstate := PlayState.end_ }
    else { pl with playstate := PlayState.play }
  | Cb.title, l, pl => { pl with video_title := l }
  | Cb.getTime, l, pl =>
    match pyInt l with
    | some n => { pl with curr_time := n }
    | none => pl
  | Cb.getLength, l, pl =>
    match pyInt l with
    | some n => { pl with total_time := n }
    | none => pl
  | Cb.other _, _, pl => pl

/-- Whether a callback completes without raising on the given line. -/
def cbSucceeds : Cb → Line → Bool
  | Cb.getTime, l => (pyInt l).isSome
  | Cb.getLength, l => (pyInt l).isSome
  | _, _ => true

/-- The shared data of `QuerierThread` (vlcc.py 210-217): the FIFO
`query_queue` of `(name, callback)` pairs and the `ready_to_query` flag.
All accesses in the source hold `data_lock`, so the sequential state is
exactly this record. -/
structure QState where
  query_queue : List (Line × Cb)
  ready_to_query : Bool
deriving DecidableEq, Repr

/-- `queue_query` (vlcc.py 282-288): if the queue is empty, set
`ready_to_query`; then append the entry. -/
def queue_query (name : Line) (cb : Cb) (s : QState) : QState :=
  { query_queue := s.query_queue ++ [(name, cb)],
    ready_to_query := if s.query_queue = [] then true else s.ready_to_query }

/-- One iteration of `QuerierThread.run` (vlcc.py 222-231): under the lock,
if `ready_to_query` and the queue is non-empty, clear the flag and send the
head's name; returns the sent name, if any. -/
def querier_tick (s : QState) : QState × Option Line :=
  match s.query_queue, s.ready_to_query with
  | (n, _) :: _, true => ({ s with ready_to_query := false }, some n)
  | _, _ => (s, none)

/-- Observable events of one processing step (the source's prints, plus the
callback invocations). -/
inductive Ev
  | sentQuery (q : Line)
  | ackRemoved (q : Line)
  | invoked (q : Line) (cb : Cb) (l : Line)
  | unmatchedStatus (p : Line)
  | unmatchedLine (l : Line)
  | invalidValue (q v : Line)
deriving DecidableEq, Repr

/-- Events that witness the removal of the queue head (`QRL removing` print of
the ack path, vlcc.py 275, or the callback invocation of the response path,
vlcc.py 301). -/
def evPop : Ev → Bool
  | Ev.ackRemoved _ => true
  | Ev.invoked _ _ _ => true
  | _ => false

/-- Projection selecting callback invocations from the event log. -/
def evInvoked : Ev → Option (Line × Cb × Line)
  | Ev.invoked q cb l => some (q, cb, l)
  | _ => none

/-- `query_return_line` (vlcc.py 266-280): if the ack regex matches, the line
is consumed (`True` is returned) whether or not the queue head agrees; the
head is removed and `ready_to_query` set only when the queue is non-empty and
the head's name equals the captured name. -/
def query_return_line (line : Line) (s : QState) : QState × Bool × List Ev :=
  match queryReturnLineMatch line with
  | some qname =>
    match s.query_queue with
    | (n, _) :: rest =>
      if n = qname then ({ query_queue := rest, ready_to_query := true }, true, [Ev.ackRemoved qname])
      else (s, true, [])
    | [] => (s, true, [])
  | none => (s, false, [])

/-- Result of `query_response`: either normal completion or an exception
propagating out; both carry the queue and player state at that moment (on a
callback exception the head has already been popped and the flag set,
vlcc.py 299-301). -/
inductive RespRes
  | okR (q : QState) (pl : PState) (evs : List Ev)
  | errR (e : PyErr) (q : QState) (pl : PState) (evs : List Ev)
deriving DecidableEq, Repr

/-- `query_response` (vlcc.py 290-302): on an empty queue raises `IndexError`
with nothing changed; otherwise pops the head, sets `ready_to_query`, and
invokes the head's callback on the line. -/
def query_response (line : Line) (s : QState) (pl : PState) : RespRes :=
  match s.query_queue with
  | [] => RespRes.errR PyErr.indexError s pl []
  | (n, cb) :: rest =>
    match runCb cb line pl with
    | Except.ok pl' =>
      RespRes.okR { query_queue := rest, ready_to_query := true } pl' [Ev.invoked n cb line]
    | Except.error e =>
      RespRes.errR e { query_queue := rest, ready_to_query := true } pl [Ev.invoked n cb line]

/-- Result of processing one line in the main loop: either the loop continues
(`ok`), or an exception escapes the `try` of vlcc.py 370-377 (only
`IndexError` and `QueryValueError` are caught there) and the process dies
(`crash`). -/
inductive StepResult
  | ok (q : QState) (pl : PState) (evs : List Ev)
  | crash (e : PyErr) (q : QState) (pl : PState) (evs : List Ev)
deriving DecidableEq, Repr

/-- The line classifier: the body of the main read loop for one decoded,
stripped line (vlcc.py 354-377).  Order is load-bearing: status-change match,
then ack match, then data-response consumption; an empty line is skipped. -/
def process_line (line : Line) (q : QState) (pl : PState) : StepResult :=
  if line = [] then StepResult.ok q pl []
  else
    match statusChangeLineMatch line with
    | some payload =>
      match runStatusChanges status_changes payload pl with
      | (pl', true) => StepResult.ok q pl' []
      | (pl', false) => StepResult.ok q pl' [Ev.unmatchedStatus payload]
    | none =>
      match query_return_line line q with
      | (q', true, evs) => StepResult.ok q' pl evs
      | (_, false, _) =>
        match query_response line q pl with
        | RespRes.okR q2 pl2 evs => StepResult.ok q2 pl2 evs
        | RespRes.errR PyErr.indexError q2 pl2 evs =>
          StepResult.ok q2 pl2 (evs ++ [Ev.unmatchedLine line])
        | RespRes.errR (PyErr.queryValueError qn v) q2 pl2 evs =>
          StepResult.ok q2 pl2 (evs ++ [Ev.invalidValue qn v])
        | RespRes.errR PyErr.valueError q2 pl2 evs =>
          StepResult.crash PyErr.valueError q2 pl2 evs

/-- The fixed startup queries (vlcc.py 330-333).  The source wires
`resp_title` for `get_time` and `get_length`; `resp_get_time` and
`resp_get_length` are never referenced. -/
def startup_queries : List (Line × Cb) :=
  [("is_playing".data, Cb.isPlaying),
   ("title".data, Cb.title),
   ("get_time".data, Cb.title),
   ("get_length".data, Cb.title)]

/-- Operations that touch the queue/player from the three activities:
`enqueue` is a `queue_query` call, `tick` one querier-thread iteration, and
`line` the main loop processing one decoded stripped line. -/
inductive Op
  | enqueue (name : Line) (cb : Cb)
  | tick
  | line (l : Line)

/-- The instrumented session state: the queue and player as in the source,
plus verification bookkeeping: `inflight` records the names of commands that
have been sent but whose queue entry has not yet been removed, `crashed`
whether an uncaught exception ended the loop, and `log` the event history. -/
structure ISt where
  q : QState
  pl : PState
  inflight : List Line
  crashed : Bool
  log : List Ev
deriving DecidableEq, Repr

/-- Session state at startup: empty queue, flag down, fresh player. -/
def initISt : ISt :=
  { q := { query_queue := [], ready_to_query := false },
    pl := initPlayer, inflight := [], crashed := false, log := [] }

/-- One step of the instrumented session.  After a crash nothing further
happens.  A dispatch appends the sent name to `inflight`; a step whose events
include a head removal clears it (the head — sent or not — is resolved). -/
def istep (s : ISt) (op : Op) : ISt :=
  if s.crashed then s
  else
    match op with
    | Op.enqueue n cb => { s with q := queue_query n cb s.q }
    | Op.tick =>
      match querier_tick s.q with
      | (q', some n) => { s with q := q', inflight := s.inflight ++ [n], log := s.log ++ [Ev.sentQuery n] }
      | (q', none) => { s with q := q' }
    | Op.line l =>
      match process_line l s.q s.pl with
      | StepResult.ok q' pl' evs =>
        { s with q := q', pl := pl', log := s.log ++ evs,
                 inflight := if evs.any evPop then [] else s.inflight }
      | StepResult.crash _ q' pl' evs =>
        { s with q := q', pl := pl', inflight := [], crashed := true, log := s.log ++ evs }

/-- A whole session run from the initial state. -/
def runOps (ops : List Op) : ISt :=
  ops.foldl istep initISt

/-- Outcome of one read-loop buffering iteration (vlcc.py 335-343), with bytes
as naturals.  `retry` models `continue` (go read again, keeping the buffer);
`line` models falling through with a complete newline-terminated buffer;
`crash` models the uncaught `IndexError` that `buf[-1]` raises on an empty
buffer. -/
inductive ReadOutcome
  | retry (buf : List Nat)
  | line (buf : List Nat)
  | crash
deriving DecidableEq, Repr

/-- One iteration of the buffering loop: append the bytes the bounded-wait
read returned (possibly none, on a timeout) and test `buf[-1] != 10`.  The
`try` around it catches only `ConnectionResetError` and `EOFError`, so the
`IndexError` from indexing an empty buffer is uncaught. -/
def read_iteration (buf data : List Nat) : ReadOutcome :=
  let buf' := buf ++ data
  match buf'.getLast? with
  | none => ReadOutcome.crash
  | some b => if b ≠ 10 then ReadOutcome.retry buf' else ReadOutcome.line buf'

/-- The name at the head of the command queue, if any. -/
def headNameQ (q : QState) : Option Line :=
  match q.query_queue with
  | [] => none
  | (n, _) :: _ => some n

/-- The strengthened induction invariant for the command queue: whenever
`ready_to_query` is up nothing is in flight, and whatever is in flight is a
single command that is still the queue head. -/
def InvFull (s : ISt) : Prop :=
  (s.q.ready_to_query = true → s.inflight = []) ∧
  (s.inflight = [] ∨
    ∃ n cb rest, s.inflight = [n] ∧ s.q.query_queue = (n, cb) :: rest)

/-- Claim C1: the spec says processing the line
`status change: ( new input: file:///C:/Movies/a.mp4 )` sets `source` to the
normalized path `C:\Movies\a.mp4` and `playState` to Playing.  The source's
rule table (vlcc.py 206) wires `sc_playing` — not `sc_new_input` — to the
new-input pattern, so the code only sets `playState = Playing` and leaves
`source` untouched; the dead handler `sc_new_input` would have produced
exactly the claimed normalized path. -/
theorem c1_new_input_leaves_source_unset :
    process_line "status change: ( new input: file:///C:/Movies/a.mp4 )".data
        { query_queue := [], ready_to_query := false } initPlayer
      = StepResult.ok { query_queue := [], ready_to_query := false }
          { initPlayer with playstate := PlayState.play } []
    ∧ ({ initPlayer with playstate := PlayState.play } : PState).source = []
    ∧ (sc_new_input "C:/Movies/a.mp4".data initPlayer).source = "C:\\Movies\\a.mp4".data
    ∧ "C:\\Movies\\a.mp4".data ≠ ([] : Line) :=
  ⟨rfl, rfl, rfl, by decide⟩

/-- Claim C2: the spec says the `get_time` and `get_length` data responses set
`currentTime` and `totalTime`.  The startup wiring (vlcc.py 332-333) attaches
`resp_title` to both queries, so their responses overwrite the title and the
two time attributes stay 0; `resp_get_time`/`resp_get_length` are never used.
Running the startup queue against responses `1`, `Movie.mp4`, `42`, `100`
ends with `video_title = "100"`, `curr_time = 0`, `total_time = 0`. -/
theorem c2_time_responses_overwrite_title :
    (runOps ((startup_queries.map (fun p => Op.enqueue p.1 p.2)) ++
        [Op.line "1".data, Op.line "Movie.mp4".data,
         Op.line "42".data, Op.line "100".data])).pl.video_title = "100".data
    ∧ (runOps ((startup_queries.map (fun p => Op.enqueue p.1 p.2)) ++
        [Op.line "1".data, Op.line "Movie.mp4".data,
         Op.line "42".data, Op.line "100".data])).pl.curr_time = 0
    ∧ (runOps ((startup_queries.map (fun p => Op.enqueue p.1 p.2)) ++
        [Op.line "1".data, Op.line "Movie.mp4".data,
         Op.line "42".data, Op.line "100".data])).pl.total_time = 0
    ∧ (runOps ((startup_queries.map (fun p => Op.enqueue p.1 p.2)) ++
        [Op.line "1".data, Op.line "Movie.mp4".data,
         Op.line "42".data, Op.line "100".data])).crashed = false :=
  ⟨rfl, rfl, rfl, rfl⟩

/-- Claim C3 counterexample: processing the payload `stop state: 0` (and
likewise `pause state: 4`) sets `playstate` to the terminal `end_` value, not
to `stop` as the claim states. -/
theorem c3_terminal_rules_not_stop :
    (runStatusChanges status_changes "stop state: 0".data initPlayer).1.playstate = PlayState.end_
    ∧ (runStatusChanges status_changes "pause state: 4".data initPlayer).1.playstate = PlayState.end_
    ∧ PlayState.end_ ≠ PlayState.stop :=
  ⟨rfl, rfl, by decide⟩

/-- Claim C3 (amended): processing `stop state: 0` sets `playState = Ended`,
and processing `pause state: 4` also sets `playState = Ended` — the source
maps both rows to `sc_stopped`, which assigns `PlayerState.end`. -/
theorem c3_terminal_rules_set_ended (pl : PState) :
    runStatusChanges status_changes "stop state: 0".data pl
      = ({ pl with playstate := PlayState.end_ }, true)
    ∧ runStatusChanges status_changes "pause state: 4".data pl
      = ({ pl with playstate := PlayState.end_ }, true) :=
  ⟨rfl, rfl⟩

/-- Witness for the amended C3 at the initial player. -/
theorem c3_witness :
    runStatusChanges status_changes "stop state: 0".data initPlayer
      = ({ initPlayer with playstate := PlayState.end_ }, true)
    ∧ runStatusChanges status_changes "pause state: 4".data initPlayer
      = ({ initPlayer with playstate := PlayState.end_ }, true) :=
  c3_terminal_rules_set_ended initPlayer

/-- Claim C4: the spec says a non-numeric payload where an integer is expected
is signaled as a distinct condition carrying the command name and the bad
value, and processing continues.  In the source, `resp_get_time`'s
`int(line)` raises a plain `ValueError` carrying neither; the read loop
catches only `IndexError` and `QueryValueError`, so the exception escapes and
the session dies (and `QueryValueError` itself is raised nowhere). -/
theorem c4_nonnumeric_response_crashes :
    runCb Cb.getTime "abc".data initPlayer = Except.error PyErr.valueError
    ∧ process_line "abc".data
        { query_queue := [("get_time".data, Cb.getTime)], ready_to_query := false } initPlayer
      = StepResult.crash PyErr.valueError { query_queue := [], ready_to_query := true }
          initPlayer [Ev.invoked "get_time".data Cb.getTime "abc".data] :=
  ⟨rfl, rfl⟩

/-- Claim C5: the spec says a bounded-wait read that returns without a
terminator — including zero bytes into an empty buffer — simply retries.  In
the source, `buf[-1]` on the empty buffer raises an uncaught `IndexError`, so
the timed-out idle read crashes the loop; only a non-empty buffer retries. -/
theorem c5_empty_timeout_read_crashes :
    read_iteration [] [] = ReadOutcome.crash
    ∧ read_iteration [72] [] = ReadOutcome.retry [72]
    ∧ read_iteration [] [72] = ReadOutcome.retry [72]
    ∧ read_iteration [72] [10] = ReadOutcome.line [72, 10] :=
  ⟨rfl, rfl, rfl, rfl⟩

/-- Claim C9: a payload matching `^audio volume: (-?[0-9]+)$` sets `volume`
to the parsed signed integer and leaves every other player attribute
unchanged (the volume rule is the first table row, and `sc_volume` writes
only `volume`). -/
theorem c9_volume_rule_frame (p g : Line) (pl : PState) (h : volGroup p = some g) :
    (runStatusChanges status_changes p pl).1.volume = parseSignedInt g
    ∧ (runStatusChanges status_changes p pl).1.video_title = pl.video_title
    ∧ (runStatusChanges status_changes p pl).1.playstate = pl.playstate
    ∧ (runStatusChanges status_changes p pl).1.curr_time = pl.curr_time
    ∧ (runStatusChanges status_changes p pl).1.total_time = pl.total_time
    ∧ (runStatusChanges status_changes p pl).1.source = pl.source
    ∧ (runStatusChanges status_changes p pl).2 = true := by
  simp [status_changes, runStatusChanges, h, sc_volume]

/-- Witness for C9 at the spec's end-to-end volume scenario. -/
theorem c9_witness :
    (runStatusChanges status_changes "audio volume: -20".data initPlayer).1.volume
      = parseSignedInt "-20".data
    ∧ (runStatusChanges status_changes "audio volume: -20".data initPlayer).1.video_title
      = initPlayer.video_title
    ∧ (runStatusChanges status_changes "audio volume: -20".data initPlayer).1.playstate
      = initPlayer.playstate
    ∧ (runStatusChanges status_changes "audio volume: -20".data initPlayer).1.curr_time
      = initPlayer.curr_time
    ∧ (runStatusChanges status_changes "audio volume: -20".data initPlayer).1.total_time
      = initPlayer.total_time
    ∧ (runStatusChanges status_changes "audio volume: -20".data initPlayer).1.source
      = initPlayer.source
    ∧ (runStatusChanges status_changes "audio volume: -20".data initPlayer).2 = true :=
  c9_volume_rule_frame "audio volume: -20".data "-20".data initPlayer (by decide)

theorem dropPrefixQ_eq_append :
    ∀ (p s r : Line), dropPrefixQ p s = some r → s = p ++ r := by
  intro p
  induction p with
  | nil =>
    intro s r h
    simp [dropPrefixQ] at h
    simp [h]
  | cons a ps ih =>
    intro s r h
    cases s with
    | nil => simp [dropPrefixQ] at h
    | cons c cs =>
      by_cases hac : a = c
      · subst hac
        rw [dropPrefixQ, if_pos rfl] at h
        simpa using ih cs r h
      · rw [dropPrefixQ, if_neg hac] at h
        exact absurd h (by simp)

/-- A line starting with the status-change prefix can never match the
acknowledgment regex: the name class has no space, so the candidate name is
`status`, after which `: returned ` would have to follow — but a space does. -/
theorem statusPrefix_no_ack (s : Line) :
    queryReturnLineMatch ("status change: ( ".data ++ s) = none := rfl

theorem queryReturnLineMatch_nil : queryReturnLineMatch [] = none := rfl

/-- A line matching the acknowledgment regex does not match the outer
status-change regex; the classifier order therefore reaches the ack path. -/
theorem ack_no_statusMatch (l g : Line) (h : queryReturnLineMatch l = some g) :
    statusChangeLineMatch l = none := by
  cases hp : dropPrefixQ "status change: ( ".data l with
  | none => simp [statusChangeLineMatch, hp]
  | some s =>
    have hl : l = "status change: ( ".data ++ s := dropPrefixQ_eq_append _ _ _ hp
    rw [hl, statusPrefix_no_ack] at h
    exact absurd h (by simp)

theorem ack_ne_nil (l g : Line) (h : queryReturnLineMatch l = some g) : l ≠ [] := by
  intro hnil
  rw [hnil, queryReturnLineMatch_nil] at h
  exact absurd h (by simp)

theorem runCb_ok_of_succeeds (cb : Cb) (l : Line) (pl : PState)
    (h : cbSucceeds cb l = true) :
    runCb cb l pl = Except.ok (applyCb cb l pl) := by
  cases cb with
  | isPlaying => rfl
  | title => rfl
  | other i => rfl
  | getTime =>
    simp only [cbSucceeds] at h
    obtain ⟨n, hn⟩ := Option.isSome_iff_exists.mp h
    simp [runCb, applyCb, hn]
  | getLength =>
    simp only [cbSucceeds] at h
    obtain ⟨n, hn⟩ := Option.isSome_iff_exists.mp h
    simp [runCb, applyCb, hn]

/-- Claim C8: `matchResponse` applied with an empty command queue invokes no
handler, reports the unmatched-line condition, continues (the `IndexError` is
caught), and leaves both the queue and the player unchanged. -/
theorem c8_response_empty_queue (l : Line) (q : QState) (pl : PState)
    (hq : q.query_queue = []) (hne : l ≠ []) (hs : statusChangeLineMatch l = none)
    (ha : queryReturnLineMatch l = none) :
    query_response l q pl = RespRes.errR PyErr.indexError q pl []
    ∧ process_line l q pl = StepResult.ok q pl [Ev.unmatchedLine l] := by
  constructor
  · simp [query_response, hq]
  · simp [process_line, hne, hs, query_return_line, ha, query_response, hq]

/-- Witness for C8: an unsolicited data line arriving with nothing queued. -/
theorem c8_witness :
    query_response "Movie.mp4".data { query_queue := [], ready_to_query := false } initPlayer
      = RespRes.errR PyErr.indexError { query_queue := [], ready_to_query := false } initPlayer []
    ∧ process_line "Movie.mp4".data { query_queue := [], ready_to_query := false } initPlayer
      = StepResult.ok { query_queue := [], ready_to_query := false } initPlayer
          [Ev.unmatchedLine "Movie.mp4".data] :=
  c8_response_empty_queue "Movie.mp4".data { query_queue := [], ready_to_query := false }
    initPlayer rfl (by decide) rfl rfl

/-- Claim C10: a line matching the ack pattern whose name differs from the
queue head's name (or arriving with an empty queue) is still consumed by the
ack path — it never reaches the data-response path — and nothing changes: the
head stays, `ready_to_query` keeps its value, no handler runs, the player is
untouched, and no condition is reported. -/
theorem c10_foreign_ack_noop (l g : Line) (q : QState) (pl : PState)
    (hm : queryReturnLineMatch l = some g) (hq : headNameQ q ≠ some g) :
    process_line l q pl = StepResult.ok q pl [] := by
  have hne : l ≠ [] := ack_ne_nil l g hm
  have hs : statusChangeLineMatch l = none := ack_no_statusMatch l g hm
  cases hqq : q.query_queue with
  | nil =>
    simp [process_line, hne, hs, query_return_line, hm, hqq]
  | cons hd tl =>
    obtain ⟨n, cb⟩ := hd
    have hng : n ≠ g := by
      intro hng
      exact hq (by simp [headNameQ, hqq, hng])
    simp [process_line, hne, hs, query_return_line, hm, hqq, hng]

/-- Witness for C10: a `seek: returned 0` ack while `title` heads the queue. -/
theorem c10_witness :
    process_line "seek: returned 0".data
        { query_queue := [("title".data, Cb.title)], ready_to_query := false } initPlayer
      = StepResult.ok { query_queue := [("title".data, Cb.title)], ready_to_query := false }
          initPlayer [] :=
  c10_foreign_ack_noop "seek: returned 0".data "seek".data
    { query_queue := [("title".data, Cb.title)], ready_to_query := false } initPlayer
    (by decide) (by decide)

/-- A non-empty line that matches neither the status-change nor the ack
pattern is consumed by the data-response path: the head is popped, the flag
set, and the head's callback invoked on the line. -/
theorem process_line_data_response (l n : Line) (cb : Cb) (rest : List (Line × Cb))
    (b : Bool) (pl : PState) (hne : l ≠ []) (hs : statusChangeLineMatch l = none)
    (ha : queryReturnLineMatch l = none) (hcb : cbSucceeds cb l = true) :
    process_line l { query_queue := (n, cb) :: rest, ready_to_query := b } pl
      = StepResult.ok { query_queue := rest, ready_to_query := true }
          (applyCb cb l pl) [Ev.invoked n cb l] := by
  simp [process_line, hne, hs, query_return_line, ha, query_response,
    runCb_ok_of_succeeds cb l pl hcb]

/-- The instrumented step for a data-response line. -/
theorem istep_line_response (l n : Line) (cb : Cb) (rest : List (Line × Cb))
    (b : Bool) (pl : PState) (infl : List Line) (log : List Ev)
    (hne : l ≠ []) (hs : statusChangeLineMatch l = none)
    (ha : queryReturnLineMatch l = none) (hcb : cbSucceeds cb l = true) :
    istep { q := { query_queue := (n, cb) :: rest, ready_to_query := b }, pl := pl,
            inflight := infl, crashed := false, log := log } (Op.line l)
      = { q := { query_queue := rest, ready_to_query := true }, pl := applyCb cb l pl,
          inflight := [], crashed := false, log := log ++ [Ev.invoked n cb l] } := by
  simp [istep, process_line_data_response l n cb rest b pl hne hs ha hcb, evPop]

/-- Claim C7: enqueuing `c1, c2, c3` and then processing three data-response
lines invokes the callbacks for `c1`, then `c2`, then `c3`, in exactly that
order, each exactly once, with no interleaving — the invocation log is
precisely the three entries in enqueue order. -/
theorem c7_fifo_order (n1 n2 n3 : Line) (c1 c2 c3 : Cb) (r1 r2 r3 : Line)
    (h1 : r1 ≠ [] ∧ statusChangeLineMatch r1 = none ∧
          queryReturnLineMatch r1 = none ∧ cbSucceeds c1 r1 = true)
    (h2 : r2 ≠ [] ∧ statusChangeLineMatch r2 = none ∧
          queryReturnLineMatch r2 = none ∧ cbSucceeds c2 r2 = true)
    (h3 : r3 ≠ [] ∧ statusChangeLineMatch r3 = none ∧
          queryReturnLineMatch r3 = none ∧ cbSucceeds c3 r3 = true) :
    (runOps [Op.enqueue n1 c1, Op.enqueue n2 c2, Op.enqueue n3 c3,
             Op.line r1, Op.line r2, Op.line r3]).log.filterMap evInvoked
      = [(n1, c1, r1), (n2, c2, r2), (n3, c3, r3)] := by
  obtain ⟨h1a, h1b, h1c, h1d⟩ := h1
  obtain ⟨h2a, h2b, h2c, h2d⟩ := h2
  obtain ⟨h3a, h3b, h3c, h3d⟩ := h3
  have hstep : runOps [Op.enqueue n1 c1, Op.enqueue n2 c2, Op.enqueue n3 c3,
      Op.line r1, Op.line r2, Op.line r3]
      = istep (istep (istep
          ({ q := { query_queue := [(n1, c1), (n2, c2), (n3, c3)], ready_to_query := true },
             pl := initPlayer, inflight := [], crashed := false, log := [] } : ISt)
          (Op.line r1)) (Op.line r2)) (Op.line r3) := rfl
  rw [hstep,
    istep_line_response r1 n1 c1 [(n2, c2), (n3, c3)] true initPlayer [] [] h1a h1b h1c h1d,
    istep_line_response r2 n2 c2 [(n3, c3)] true (applyCb c1 r1 initPlayer)
      [] ([] ++ [Ev.invoked n1 c1 r1]) h2a h2b h2c h2d,
    istep_line_response r3 n3 c3 [] true (applyCb c2 r2 (applyCb c1 r1 initPlayer))
      [] (([] ++ [Ev.invoked n1 c1 r1]) ++ [Ev.invoked n2 c2 r2]) h3a h3b h3c h3d]
  simp [evInvoked]

/-- Witness for C7 with the startup-style commands and concrete responses. -/
theorem c7_witness :
    (runOps [Op.enqueue "title".data Cb.title, Op.enqueue "get_time".data (Cb.other 1),
             Op.enqueue "get_length".data (Cb.other 2),
             Op.line "Movie.mp4".data, Op.line "42".data, Op.line "100".data]).log.filterMap evInvoked
      = [("title".data, Cb.title, "Movie.mp4".data),
         ("get_time".data, Cb.other 1, "42".data),
         ("get_length".data, Cb.other 2, "100".data)] :=
  c7_fifo_order "title".data "get_time".data "get_length".data
    Cb.title (Cb.other 1) (Cb.other 2)
    "Movie.mp4".data "42".data "100".data
    ⟨by decide, rfl, rfl, rfl⟩ ⟨by decide, rfl, rfl, rfl⟩ ⟨by decide, rfl, rfl, rfl⟩

/-- Queue effect of the ack path: either the line is not consumed as a
removal (queue and flag untouched, no pop event), or the head was popped, the
flag raised, and a pop event logged. -/
theorem query_return_line_queue (l : Line) (q : QState) :
    ((query_return_line l q).1 = q ∧ (query_return_line l q).2.2 = []) ∨
    (∃ n cb, q.query_queue = (n, cb) :: (query_return_line l q).1.query_queue ∧
      (query_return_line l q).1.ready_to_query = true ∧
      (query_return_line l q).2.2.any evPop = true) := by
  cases hm : queryReturnLineMatch l with
  | none => left; simp [query_return_line, hm]
  | some g =>
    cases hqq : q.query_queue with
    | nil => left; simp [query_return_line, hm, hqq]
    | cons hd tl =>
      obtain ⟨n, cb⟩ := hd
      by_cases hng : n = g
      · right
        refine ⟨n, cb, ?_, ?_, ?_⟩ <;> simp [query_return_line, hm, hqq, hng, evPop]
      · left; simp [query_return_line, hm, hqq, hng]

/-- Case analysis of `query_response`: empty queue raises with nothing
changed; otherwise the head is popped, the flag raised, and the callback
invoked, whether it returns or raises. -/
theorem query_response_cases (l : Line) (q : QState) (pl : PState) :
    (q.query_queue = [] ∧ query_response l q pl = RespRes.errR PyErr.indexError q pl []) ∨
    (∃ n cb rest, q.query_queue = (n, cb) :: rest ∧
      ((∃ pl2, query_response l q pl
          = RespRes.okR { query_queue := rest, ready_to_query := true } pl2 [Ev.invoked n cb l]) ∨
       (∃ e, query_response l q pl
          = RespRes.errR e { query_queue := rest, ready_to_query := true } pl [Ev.invoked n cb l]))) := by
  cases hqq : q.query_queue with
  | nil => exact Or.inl ⟨rfl, by simp [query_response, hqq]⟩
  | cons hd tl =>
    obtain ⟨n, cb⟩ := hd
    refine Or.inr ⟨n, cb, tl, rfl, ?_⟩
    cases hr : runCb cb l pl with
    | ok pl2 => exact Or.inl ⟨pl2, by simp [query_response, hqq, hr]⟩
    | error e => exact Or.inr ⟨e, by simp [query_response, hqq, hr]⟩

/-- Queue effect of one successfully processed line: either the queue is
untouched and no pop event is logged, or the head was removed, the flag
raised, and a pop event logged. -/
theorem process_line_ok_queue (l : Line) (q : QState) (pl : PState)
    (q' : QState) (pl' : PState) (evs : List Ev)
    (h : process_line l q pl = StepResult.ok q' pl' evs) :
    (q' = q ∧ evs.any evPop = false) ∨
    (∃ n cb, q.query_queue = (n, cb) :: q'.query_queue ∧ q'.ready_to_query = true ∧
      evs.any evPop = true) := by
  by_cases hl : l = []
  · have hval : process_line l q pl = StepResult.ok q pl [] := by simp [process_line, hl]
    rw [hval] at h
    simp only [StepResult.ok.injEq] at h
    exact Or.inl ⟨h.1.symm, by simp [← h.2.2]⟩
  · cases hs : statusChangeLineMatch l with
    | some payload =>
      rcases hrs : runStatusChanges status_changes payload pl with ⟨pl2, b2⟩
      cases b2
      · have hval : process_line l q pl = StepResult.ok q pl2 [Ev.unmatchedStatus payload] := by
          simp [process_line, hl, hs, hrs]
        rw [hval] at h
        simp only [StepResult.ok.injEq] at h
        exact Or.inl ⟨h.1.symm, by simp [← h.2.2, evPop]⟩
      · have hval : process_line l q pl = StepResult.ok q pl2 [] := by
          simp [process_line, hl, hs, hrs]
        rw [hval] at h
        simp only [StepResult.ok.injEq] at h
        exact Or.inl ⟨h.1.symm, by simp [← h.2.2]⟩
    | none =>
      rcases hql : query_return_line l q with ⟨q1, b1, evs1⟩
      cases b1
      · rcases query_response_cases l q pl with ⟨hqe, hresp⟩ | ⟨n, cb, rest, hqq, hok | herr⟩
        · have hval : process_line l q pl = StepResult.ok q pl [Ev.unmatchedLine l] := by
            simp [process_line, hl, hs, hql, hresp]
          rw [hval] at h
          simp only [StepResult.ok.injEq] at h
          exact Or.inl ⟨h.1.symm, by simp [← h.2.2, evPop]⟩
        · obtain ⟨pl2, hresp⟩ := hok
          have hval : process_line l q pl
              = StepResult.ok { query_queue := rest, ready_to_query := true } pl2
                  [Ev.invoked n cb l] := by
            simp [process_line, hl, hs, hql, hresp]
          rw [hval] at h
          simp only [StepResult.ok.injEq] at h
          refine Or.inr ⟨n, cb, ?_, ?_, ?_⟩
          · rw [hqq, ← h.1]
          · rw [← h.1]
          · simp [← h.2.2, evPop]
        · obtain ⟨e, hresp⟩ := herr
          cases e with
          | indexError =>
            have hval : process_line l q pl
                = StepResult.ok { query_queue := rest, ready_to_query := true } pl
                    ([Ev.invoked n cb l] ++ [Ev.unmatchedLine l]) := by
              simp [process_line, hl, hs, hql, hresp]
            rw [hval] at h
            simp only [StepResult.ok.injEq] at h
            refine Or.inr ⟨n, cb, ?_, ?_, ?_⟩
            · rw [hqq, ← h.1]
            · rw [← h.1]
            · simp [← h.2.2, evPop]
          | queryValueError qn v =>
            have hval : process_line l q pl
                = StepResult.ok { query_queue := rest, ready_to_query := true } pl
                    ([Ev.invoked n cb l] ++ [Ev.invalidValue qn v]) := by
              simp [process_line, hl, hs, hql, hresp]
            rw [hval] at h
            simp only [StepResult.ok.injEq] at h
            refine Or.inr ⟨n, cb, ?_, ?_, ?_⟩
            · rw [hqq, ← h.1]
            · rw [← h.1]
            · simp [← h.2.2, evPop]
          | valueError =>
            have hval : process_line l q pl
                = StepResult.crash PyErr.valueError
                    { query_queue := rest, ready_to_query := true } pl [Ev.invoked n cb l] := by
              simp [process_line, hl, hs, hql, hresp]
            rw [hval] at h
            exact absurd h (by simp)
      · have hval : process_line l q pl = StepResult.ok q1 pl evs1 := by
          simp [process_line, hl, hs, hql]
        rw [hval] at h
        simp only [StepResult.ok.injEq] at h
        have hc := query_return_line_queue l q
        rw [hql] at hc
        dsimp only at hc
        rcases hc with ⟨hc1, hc2⟩ | ⟨n, cb, hc1, hc2, hc3⟩
        · exact Or.inl ⟨h.1 ▸ hc1, by rw [← h.2.2, hc2]; rfl⟩
        · exact Or.inr ⟨n, cb, by rw [hc1, h.1], by rw [← h.1]; exact hc2, by rw [← h.2.2]; exact hc3⟩

/-- The read loop dies (uncaught exception) only when a data-response
callback raised; the head had then already been popped and the flag set. -/
theorem process_line_crash_queue (l : Line) (q : QState) (pl : PState)
    (e : PyErr) (q' : QState) (pl' : PState) (evs : List Ev)
    (h : process_line l q pl = StepResult.crash e q' pl' evs) :
    ∃ n cb, q.query_queue = (n, cb) :: q'.query_queue ∧ q'.ready_to_query = true := by
  by_cases hl : l = []
  · have hval : process_line l q pl = StepResult.ok q pl [] := by simp [process_line, hl]
    rw [hval] at h
    exact absurd h (by simp)
  · cases hs : statusChangeLineMatch l with
    | some payload =>
      rcases hrs : runStatusChanges status_changes payload pl with ⟨pl2, b2⟩
      cases b2 <;>
        [ exact absurd ((by simp [process_line, hl, hs, hrs] :
            process_line l q pl = StepResult.ok q pl2 [Ev.unmatchedStatus payload]) ▸ h) (by simp);
          exact absurd ((by simp [process_line, hl, hs, hrs] :
            process_line l q pl = StepResult.ok q pl2 []) ▸ h) (by simp) ]
    | none =>
      rcases hql : query_return_line l q with ⟨q1, b1, evs1⟩
      cases b1
      · rcases query_response_cases l q pl with ⟨hqe, hresp⟩ | ⟨n, cb, rest, hqq, hok | herr⟩
        · have hval : process_line l q pl = StepResult.ok q pl [Ev.unmatchedLine l] := by
            simp [process_line, hl, hs, hql, hresp]
          rw [hval] at h
          exact absurd h (by simp)
        · obtain ⟨pl2, hresp⟩ := hok
          have hval : process_line l q pl
              = StepResult.ok { query_queue := rest, ready_to_query := true } pl2
                  [Ev.invoked n cb l] := by
            simp [process_line, hl, hs, hql, hresp]
          rw [hval] at h
          exact absurd h (by simp)
        · obtain ⟨e2, hresp⟩ := herr
          cases e2 with
          | indexError =>
            have hval : process_line l q pl
                = StepResult.ok { query_queue := rest, ready_to_query := true } pl
                    ([Ev.invoked n cb l] ++ [Ev.unmatchedLine l]) := by
              simp [process_line, hl, hs, hql, hresp]
            rw [hval] at h
            exact absurd h (by simp)
          | queryValueError qn v =>
            have hval : process_line l q pl
                = StepResult.ok { query_queue := rest, ready_to_query := true } pl
                    ([Ev.invoked n cb l] ++ [Ev.invalidValue qn v]) := by
              simp [process_line, hl, hs, hql, hresp]
            rw [hval] at h
            exact absurd h (by simp)
          | valueError =>
            have hval : process_line l q pl
                = StepResult.crash PyErr.valueError
                    { query_queue := rest, ready_to_query := true } pl [Ev.invoked n cb l] := by
              simp [process_line, hl, hs, hql, hresp]
            rw [hval] at h
            simp only [StepResult.crash.injEq] at h
            exact ⟨n, cb, by rw [hqq, ← h.2.1], by rw [← h.2.1]⟩
      · have hval : process_line l q pl = StepResult.ok q1 pl evs1 := by
          simp [process_line, hl, hs, hql]
        rw [hval] at h
        exact absurd h (by simp)

theorem invFull_init : InvFull initISt := by
  constructor
  · intro h
    exact absurd h (by simp [initISt])
  · exact Or.inl rfl

theorem invFull_istep (s : ISt) (op : Op) (h : InvFull s) : InvFull (istep s op) := by
  obtain ⟨q0, pl0, infl0, cr0, log0⟩ := s
  cases cr0 with
  | true => simpa [istep] using h
  | false =>
    cases op with
    | enqueue n cb =>
      have hval : istep ⟨q0, pl0, infl0, false, log0⟩ (Op.enqueue n cb)
          = ⟨queue_query n cb q0, pl0, infl0, false, log0⟩ := by
        simp [istep]
      rw [hval]
      obtain ⟨h1, h2⟩ := h
      constructor
      · intro hr
        by_cases hqe : q0.query_queue = []
        · rcases h2 with h2 | ⟨n0, cb0, rest, hin, hq⟩
          · exact h2
          · rw [hqe] at hq
            exact absurd hq (by simp)
        · have hrs : q0.ready_to_query = true := by
            simpa [queue_query, hqe] using hr
          exact h1 hrs
      · rcases h2 with h2 | ⟨n0, cb0, rest, hin, hq⟩
        · exact Or.inl h2
        · refine Or.inr ⟨n0, cb0, rest ++ [(n, cb)], hin, ?_⟩
          have hq2 : q0.query_queue = (n0, cb0) :: rest := hq
          simp [queue_query, hq2]
    | tick =>
      rcases hqq : q0.query_queue with _ | ⟨⟨n0, cb0⟩, rest⟩
      · have hval : istep ⟨q0, pl0, infl0, false, log0⟩ Op.tick
            = ⟨q0, pl0, infl0, false, log0⟩ := by
          simp [istep, querier_tick, hqq]
        rw [hval]
        exact h
      · cases hr : q0.ready_to_query
        · have hval : istep ⟨q0, pl0, infl0, false, log0⟩ Op.tick
              = ⟨q0, pl0, infl0, false, log0⟩ := by
            simp [istep, querier_tick, hqq, hr]
          rw [hval]
          exact h
        · have hval : istep ⟨q0, pl0, infl0, false, log0⟩ Op.tick
              = ⟨{ q0 with ready_to_query := false }, pl0, infl0 ++ [n0], false,
                 log0 ++ [Ev.sentQuery n0]⟩ := by
            simp [istep, querier_tick, hqq, hr]
          rw [hval]
          obtain ⟨h1, h2⟩ := h
          have hinfl : infl0 = [] := h1 hr
          constructor
          · intro hcontra
            exact absurd hcontra (by simp)
          · exact Or.inr ⟨n0, cb0, rest, by simp [hinfl], by simpa using hqq⟩
    | line l =>
      cases hres : process_line l q0 pl0 with
      | ok q' pl' evs =>
        rcases process_line_ok_queue l q0 pl0 q' pl' evs hres with ⟨hq', hev⟩ | ⟨n, cb, hqc, hrdy, hev⟩
        · have hval : istep ⟨q0, pl0, infl0, false, log0⟩ (Op.line l)
              = ⟨q', pl', infl0, false, log0 ++ evs⟩ := by
            simp [istep, hres, hev]
          rw [hval]
          obtain ⟨h1, h2⟩ := h
          constructor
          · intro hr
            exact h1 (by rw [← hq']; exact hr)
          · rcases h2 with h2 | ⟨n0, cb0, rest, hin, hq⟩
            · exact Or.inl h2
            · exact Or.inr ⟨n0, cb0, rest, hin, by rw [hq']; exact hq⟩
        · have hval : istep ⟨q0, pl0, infl0, false, log0⟩ (Op.line l)
              = ⟨q', pl', [], false, log0 ++ evs⟩ := by
            simp [istep, hres, hev]
          rw [hval]
          exact ⟨fun _ => rfl, Or.inl rfl⟩
      | crash e q' pl' evs =>
        have hval : istep ⟨q0, pl0, infl0, false, log0⟩ (Op.line l)
            = ⟨q', pl', [], true, log0 ++ evs⟩ := by
          simp [istep, hres]
        rw [hval]
        exact ⟨fun _ => rfl, Or.inl rfl⟩

theorem invFull_runOps (ops : List Op) : InvFull (runOps ops) := by
  have hrec : ∀ (rest : List Op) (s : ISt), InvFull s → InvFull (List.foldl istep s rest) := by
    intro rest
    induction rest with
    | nil => intro s h; simpa using h
    | cons op tl ih =>
      intro s h
      exact ih (istep s op) (invFull_istep s op h)
  exact hrec ops initISt invFull_init

/-- Claim C6: in every reachable state of the command queue, at most one
command is in flight (sent but not yet resolved), and whenever the flag is up
nothing is in flight; moreover any step that raises `ready_to_query` from
false to true is either an enqueue into an empty queue or a line that removed
the queue head (an ack match or a response match). -/
theorem c6_queue_discipline :
    (∀ ops : List Op, (runOps ops).inflight.length ≤ 1 ∧
        ((runOps ops).q.ready_to_query = true → (runOps ops).inflight = [])) ∧
    (∀ (s : ISt) (op : Op), (istep s op).q.ready_to_query = true →
        s.q.ready_to_query = false →
        (∃ n cb, op = Op.enqueue n cb ∧ s.q.query_queue = []) ∨
        (∃ l n cb, op = Op.line l ∧
          s.q.query_queue = (n, cb) :: (istep s op).q.query_queue)) := by
  constructor
  · intro ops
    obtain ⟨h1, h2⟩ := invFull_runOps ops
    refine ⟨?_, h1⟩
    rcases h2 with h2 | ⟨n, cb, rest, hin, _⟩
    · simp [h2]
    · simp [hin]
  · intro s op h1 h0
    obtain ⟨q0, pl0, infl0, cr0, log0⟩ := s
    have h0q : q0.ready_to_query = false := h0
    cases cr0 with
    | true =>
      rw [show istep ⟨q0, pl0, infl0, true, log0⟩ op = ⟨q0, pl0, infl0, true, log0⟩ from by
        simp [istep]] at h1
      exact absurd h1 (by simp [h0q])
    | false =>
      cases op with
      | enqueue n cb =>
        left
        refine ⟨n, cb, rfl, ?_⟩
        by_contra hqe
        have hqe2 : ¬q0.query_queue = [] := hqe
        have hval : istep ⟨q0, pl0, infl0, false, log0⟩ (Op.enqueue n cb)
            = ⟨queue_query n cb q0, pl0, infl0, false, log0⟩ := by
          simp [istep]
        rw [hval] at h1
        have hrs : q0.ready_to_query = true := by
          simpa [queue_query, hqe2] using h1
        exact absurd hrs (by simp [h0q])
      | tick =>
        exfalso
        rcases hqq : q0.query_queue with _ | ⟨⟨n0, cb0⟩, rest⟩
        · rw [show istep ⟨q0, pl0, infl0, false, log0⟩ Op.tick
              = ⟨q0, pl0, infl0, false, log0⟩ from by simp [istep, querier_tick, hqq]] at h1
          exact absurd h1 (by simp [h0q])
        · cases hr : q0.ready_to_query
          · rw [show istep ⟨q0, pl0, infl0, false, log0⟩ Op.tick
                = ⟨q0, pl0, infl0, false, log0⟩ from by
              simp [istep, querier_tick, hqq, hr]] at h1
            exact absurd h1 (by simp [h0q])
          · exact absurd hr (by simp [h0q])
      | line l =>
        right
        cases hres : process_line l q0 pl0 with
        | ok q' pl' evs =>
          have hval : istep ⟨q0, pl0, infl0, false, log0⟩ (Op.line l)
              = ⟨q', pl', if evs.any evPop then [] else infl0, false, log0 ++ evs⟩ := by
            simp [istep, hres]
          rcases process_line_ok_queue l q0 pl0 q' pl' evs hres with ⟨hq', _⟩ | ⟨n, cb, hqc, _, _⟩
          · exfalso
            rw [hval] at h1
            simp [hq', h0q] at h1
          · exact ⟨l, n, cb, rfl, by rw [hval]; exact hqc⟩
        | crash e q' pl' evs =>
          have hval : istep ⟨q0, pl0, infl0, false, log0⟩ (Op.line l)
              = ⟨q', pl', [], true, log0 ++ evs⟩ := by
            simp [istep, hres]
          obtain ⟨n, cb, hqc, _⟩ := process_line_crash_queue l q0 pl0 e q' pl' evs hres
          exact ⟨l, n, cb, rfl, by rw [hval]; exact hqc⟩

/-- Witness for C6: the two-step startup prefix (enqueue then dispatch), and
the flag-raising enqueue-into-empty transition from the initial state. -/
theorem c6_witness :
    ((runOps [Op.enqueue "is_playing".data Cb.isPlaying, Op.tick]).inflight.length ≤ 1 ∧
      ((runOps [Op.enqueue "is_playing".data Cb.isPlaying, Op.tick]).q.ready_to_query = true →
        (runOps [Op.enqueue "is_playing".data Cb.isPlaying, Op.tick]).inflight = [])) ∧
    ((∃ n cb, Op.enqueue "is_playing".data Cb.isPlaying = Op.enqueue n cb ∧
        initISt.q.query_queue = []) ∨
     (∃ l n cb, Op.enqueue "is_playing".data Cb.isPlaying = Op.line l ∧
        initISt.q.query_queue = (n, cb) ::
          (istep initISt (Op.enqueue "is_playing".data Cb.isPlaying)).q.query_queue)) :=
  ⟨c6_queue_discipline.1 [Op.enqueue "is_playing".data Cb.isPlaying, Op.tick],
   c6_queue_discipline.2 initISt (Op.enqueue "is_playing".data Cb.isPlaying)
     (by decide) (by decide)⟩

end VLCC
